import Mathlib

/-!
Verification development for the lego-can firmware core: the telemetry
capture buffer and frame decoder, the H-bridge motor actuation layer, the
handshake sequencer, and the watchdog control loop.  Each Rust function of
the core is shallowly embedded as an executable Lean definition; machine
integers are modelled as `Nat` (bytes, cursors) or `Int` (signed fields)
with explicit two's-complement conversions where the code converts.
-/

/-- A byte is modelled as a natural number; all bytes produced by the code
are below 256. -/
abbrev Byte := Nat

/-- Length of DataFrame is 10 bytes (src/projects/lego-can/src/telemetry/telemetry_source.rs). -/
def FRAME_LEN : Nat := 10

/-- Each frame starts with this byte. -/
def START : Byte := 0xD8

/-- Poll marker byte (src/projects/lego-can/src/telemetry/mod.rs). -/
def POLL : Byte := 0x04

/-- Two's-complement read of one byte as an `i8` (`i8::from_be_bytes([b])`). -/
def toI8 (b : Nat) : Int := if b < 128 then (b : Int) else (b : Int) - 256

/-- Two's-complement value of a 16-bit unsigned number as an `i16`. -/
def toI16 (n : Nat) : Int := if n < 32768 then (n : Int) else (n : Int) - 65536

/-- Two's-complement value of a 32-bit unsigned number as an `i32`. -/
def toI32 (n : Nat) : Int := if n < 2147483648 then (n : Int) else (n : Int) - 4294967296

/-- Bitwise NOT of a byte (`!x` on `u8`): flips the low 8 bits. -/
def byteNot (b : Byte) : Byte := b ^^^ 0xFF

/-- Lego telemetry sample (src/projects/lego-can/src/telemetry/sample.rs).
Signed fields are modelled as `Int`, constrained by the field widths of the
conversions that produce them. -/
structure Sample where
  speed : Int
  angle : Int
  position : Int
deriving DecidableEq, Repr

/-- `Sample::from_be_bytes`: construct a sample from raw bytes, which
correspond to bytes 1..8 of the DataFrame.  Big-endian multi-byte fields
are recombined arithmetically (for bytes < 256 this agrees with the bit
concatenation done by `from_be_bytes`); the source indexes the buffer
directly under a length precondition, totalised here with `getD`. -/
def Sample.from_be_bytes (bytes : List Byte) : Sample :=
  { speed := toI8 (bytes.getD 0 0)
  , angle := toI32 ((bytes.getD 1 0) * 16777216 + (bytes.getD 2 0) * 65536 +
      (bytes.getD 3 0) * 256 + bytes.getD 4 0)
  , position := toI16 ((bytes.getD 5 0) * 256 + bytes.getD 6 0) }

/-- `checksum_checker`: Checksum8 = NOT(XOR of the bytes before the checksum
byte).  The source folds `xor` starting from `buffer[0]` over indices
`1..FRAME_LEN-1` and compares `buffer[FRAME_LEN-1]` with the complement. -/
def checksum_checker (buffer : List Byte) : Bool :=
  let xor := (List.range' 1 (FRAME_LEN - 2)).foldl
    (fun x i => x ^^^ buffer.getD i 0) (buffer.getD 0 0)
  buffer.getD (FRAME_LEN - 1) 0 == byteNot xor

/-- `Sample::from_dataframe`: decode a frame, rejecting it when the checksum
fails (`Result<Self, ()>` in the source). -/
def Sample.from_dataframe (bytes : List Byte) : Except Unit Sample :=
  if checksum_checker bytes then .ok (Sample.from_be_bytes (bytes.drop 1))
  else .error ()

/-- Buffer status values (IDLE/WRITING/DONEWRITING/READING constants of the
source, stored there in an `AtomicU32`). -/
inductive Status where
  | idle
  | writing
  | doneWriting
  | reading
deriving DecidableEq, Repr

/-- Labels for the error return sites of the telemetry buffer.  The Rust
methods return `Result<_, ()>`; the constructors name the distinct return
sites, matching the error taxonomy of the design (Overrun, Framing,
Checksum, Reentrant). -/
inductive TelemetryError where
  | overrun
  | framing
  | checksum
  | reentrant
deriving DecidableEq, Repr

/-- Async friendly buffer for telemetry feedback
(src/projects/lego-can/src/telemetry/telemetry_source.rs).  `data` always
has length `FRAME_LEN`. -/
structure TelemetrySource where
  status : Status
  data : List Byte
  write_index : Nat
deriving DecidableEq, Repr

/-- `TelemetrySource::new`. -/
def TelemetrySource.new : TelemetrySource :=
  { status := .idle, data := List.replicate FRAME_LEN 0, write_index := 0 }

/-- Common tail of `write_byte` reached when the compare-exchange
`IDLE -> WRITING` succeeded or the status was already `WRITING`: store the
byte, check the start byte, advance the cursor, publish `DONEWRITING` when
the cursor wraps. -/
def TelemetrySource.write_byte_locked (s : TelemetrySource) (byte : Byte) :
    Except TelemetryError Unit × TelemetrySource :=
  let i := s.write_index
  let data := s.data.set i byte
  if i == 0 && byte != START then
    (.error .framing, { s with data := data, write_index := 0, status := .idle })
  else
    let wi := (i + 1) % FRAME_LEN
    if wi == 0 then
      (.ok (), { s with data := data, write_index := wi, status := .doneWriting })
    else
      (.ok (), { s with data := data, write_index := wi, status := .writing })

/-- `TelemetrySource::write_byte`: push a byte to the buffer.  On a failed
compare-exchange with status `DONEWRITING` or `READING` the cursor is reset
and an error returned; with status `WRITING` the store proceeds. -/
def TelemetrySource.write_byte (s : TelemetrySource) (byte : Byte) :
    Except TelemetryError Unit × TelemetrySource :=
  match s.status with
  | .doneWriting => (.error .overrun, { s with write_index := 0 })
  | .reading => (.error .overrun, { s with write_index := 0 })
  | .idle => TelemetrySource.write_byte_locked { s with status := .writing } byte
  | .writing => TelemetrySource.write_byte_locked { s with status := .writing } byte

/-- `TelemetrySource::try_read_sample`: compare-exchange
`DONEWRITING -> READING`; on success decode the frame.  Note that on a
checksum failure the `?` operator returns before the `store(IDLE)`, so the
status remains `READING`. -/
def TelemetrySource.try_read_sample (s : TelemetrySource) :
    Except TelemetryError (Option Sample) × TelemetrySource :=
  match s.status with
  | .doneWriting =>
    match Sample.from_dataframe s.data with
    | .ok sample => (.ok (some sample), { s with status := .idle })
    | .error _ => (.error .checksum, { s with status := .reading })
  | .reading => (.error .reentrant, { s with status := .idle })
  | .idle => (.ok none, s)
  | .writing => (.ok none, s)

/-- Feed a byte sequence one byte at a time through `write_byte`, keeping
only the evolving buffer state. -/
def writeFrame (s : TelemetrySource) (bytes : List Byte) : TelemetrySource :=
  bytes.foldl (fun st b => (st.write_byte b).2) s

/-- `i8::to_be_bytes` of a value in range, as the low byte of its
two's-complement representation. -/
def i8_to_be_bytes (v : Int) : List Byte := [(v % 256).toNat]

/-- `i16::to_be_bytes`. -/
def i16_to_be_bytes (v : Int) : List Byte :=
  [((v % 65536).toNat) / 256, ((v % 65536).toNat) % 256]

/-- `i32::to_be_bytes`. -/
def i32_to_be_bytes (v : Int) : List Byte :=
  [((v % 4294967296).toNat) / 16777216 % 256,
   ((v % 4294967296).toNat) / 65536 % 256,
   ((v % 4294967296).toNat) / 256 % 256,
   ((v % 4294967296).toNat) % 256]

/-- `Sample::write_be_bytes`: write the sample into the 7 payload bytes
(speed, angle big-endian, position big-endian), modelled as producing the
7-byte list the source writes into the buffer. -/
def Sample.write_be_bytes (s : Sample) : List Byte :=
  i8_to_be_bytes s.speed ++ i32_to_be_bytes s.angle ++ i16_to_be_bytes s.position

/-- Checksum8 over the first 9 frame bytes: NOT of their cumulative XOR. -/
def checksum8 (bytes : List Byte) : Byte := byteNot (bytes.foldl (fun a b => a ^^^ b) 0)

/-- A full wire frame for a sample: start marker, the 7 payload bytes, the
zero filler byte, and the correctly recomputed checksum.  This packages the
payload per the DataFrame wire format for the round-trip statement. -/
def encodeFrame (s : Sample) : List Byte :=
  let body := START :: (s.write_be_bytes ++ [0])
  body ++ [checksum8 body]

/-- State of one leg of an H-bridge (src/projects/lego-can/src/motor_driver.rs):
`HalfBridge.off` turns both FETs off, `HalfBridge.ground` turns the low FET
on, `HalfBridge.pwm` drives the high FET with the given duty. -/
inductive LegState where
  | off
  | ground
  | pwm (duty : Nat)
deriving DecidableEq, Repr

/-- Full H-bridge motor driver: `legs[0]` is the left leg (leg A) and
`legs[1]` the right leg (leg B). -/
structure FullBridge where
  legA : LegState
  legB : LegState
deriving DecidableEq, Repr

instance : Inhabited FullBridge := ⟨⟨.off, .off⟩⟩

/-- Write one leg of the bridge (index 0 = leg A, index 1 = leg B). -/
def FullBridge.applyOp (fb : FullBridge) (op : Nat × LegState) : FullBridge :=
  if op.1 == 0 then { fb with legA := op.2 } else { fb with legB := op.2 }

/-- The sequence of primitive leg writes performed by `FullBridge::pwm`:
`ccr = pwm.abs() as u16`; zero command grounds leg 0 then leg 1
(`off_ground` iterates the legs in order); otherwise the grounded leg is
written strictly before the PWM leg. -/
def FullBridge.pwmOps (cmd : Int) : List (Nat × LegState) :=
  let ccr := cmd.natAbs
  if ccr == 0 then
    [(0, .ground), (1, .ground)]
  else
    let direction := cmd > 0
    let pwm_leg := if direction then 0 else 1
    let gnd_leg := if direction then 1 else 0
    [(gnd_leg, .ground), (pwm_leg, .pwm ccr)]

/-- `FullBridge::pwm`: final bridge state after the operation sequence. -/
def FullBridge.pwm (fb : FullBridge) (cmd : Int) : FullBridge :=
  (FullBridge.pwmOps cmd).foldl FullBridge.applyOp fb

/-- All bridge states observed while `FullBridge::pwm` executes, the initial
state included. -/
def FullBridge.pwmTrace (fb : FullBridge) (cmd : Int) : List FullBridge :=
  (FullBridge.pwmOps cmd).scanl FullBridge.applyOp fb

/-- `FullBridge::off_ground`: connect both legs to ground. -/
def FullBridge.off_ground (_fb : FullBridge) : FullBridge :=
  { legA := .ground, legB := .ground }

/-- Both legs of the bridge are simultaneously in the Pwm state (the
forbidden shoot-through configuration). -/
def FullBridge.bothPwm (fb : FullBridge) : Bool :=
  (match fb.legA with | .pwm _ => true | _ => false) &&
  (match fb.legB with | .pwm _ => true | _ => false)

/-- `Motors::off_ground`: ground both legs of every channel. -/
def Motors.off_ground (motors : List FullBridge) : List FullBridge :=
  motors.map FullBridge.off_ground

/-- `Motors::set_raw_pwm`: decode three big-endian `i16` values from the raw
six-byte host command and apply `FullBridge::pwm` per motor. -/
def Motors.set_raw_pwm (motors : List FullBridge) (raw_pwm : List Byte) : List FullBridge :=
  (List.range 3).foldl
    (fun ms i =>
      let pwm := toI16 ((raw_pwm.getD (2 * i) 0) * 256 + raw_pwm.getD (2 * i + 1) 0)
      ms.set i ((ms.getD i default).pwm pwm))
    motors

/-- Motor turns off if connection is timed out (src/projects/lego-can/src/main.rs). -/
def MOTOR_CMD_TIMEOUT : Nat := 128

/-- Largest value of the Rust `usize` counter (64-bit target). -/
def USIZE_MAX : Nat := 18446744073709551615

/-- The control-loop state relevant to the watchdog: the command-timeout
counter and the three motor bridges. -/
structure ControlState where
  watchdog : Nat
  motors : List FullBridge
deriving DecidableEq, Repr

/-- One pass of the main loop (src/projects/lego-can/src/main.rs): when the
2kHz timer flag is set the watchdog counter is incremented with
`saturating_add(1)`; if the counter is at or above `MOTOR_CMD_TIMEOUT` the
fail-safe `motors.off_ground()` runs; a host read that returned exactly six
bytes (`cmd = some raw`) is applied with `set_raw_pwm` and resets the
counter to zero.  Returns whether the fail-safe ran this pass, and the new
state. -/
def loopPass (st : ControlState) (tick : Bool) (cmd : Option (List Byte)) :
    Bool × ControlState :=
  let w := if tick then min (st.watchdog + 1) USIZE_MAX else st.watchdog
  let motor_timed_out := decide (MOTOR_CMD_TIMEOUT ≤ w)
  let motors := if motor_timed_out then Motors.off_ground st.motors else st.motors
  match cmd with
  | none => (motor_timed_out, { watchdog := w, motors := motors })
  | some raw => (motor_timed_out, { watchdog := 0, motors := Motors.set_raw_pwm motors raw })

/-- Run `n` consecutive loop passes that each see a timer tick and no host
command. -/
def runTicks (st : ControlState) : Nat → ControlState
  | 0 => st
  | n + 1 => (loopPass (runTicks st n) true none).2

/-- First byte sequence of the recorded handshake
(src/projects/lego-can/src/telemetry/initialization.rs). -/
def HELLO : List Byte := [0x52, 0x00, 0xC2, 0x01, 0x00, 0x6E]

/-- Second byte sequence of the recorded handshake. -/
def CONFIRMED : List Byte :=
  [0x5C, 0x23, 0x00, 0x10, 0x20, 0x30, 0x00, 0x00, 0x00, 0x80]

/-- Read-attempt budget of the handshake poll loop (`for _ in 0..100_000`). -/
def ATTEMPT_BUDGET : Nat := 100000

/-- The poll loop of `initialization`: `reads k` is what the k-th
`read_byte` call returns.  Each iteration performs one read; a read
yielding exactly the `POLL` marker stops the loop, echoes the marker and
sends `CONFIRMED`.  Returns the ack flag, the number of loop reads
performed, and the bytes written after the loop started. -/
def pollLoop (reads : Nat → Option Byte) : Nat → Nat → Bool × Nat × List Byte
  | 0, _ => (false, 0, [])
  | fuel + 1, k =>
    match reads k with
    | some b =>
      if b == POLL then (true, 1, POLL :: CONFIRMED)
      else
        let r := pollLoop reads fuel (k + 1)
        (r.1, r.2.1 + 1, r.2.2)
    | none =>
      let r := pollLoop reads fuel (k + 1)
      (r.1, r.2.1 + 1, r.2.2)

/-- `initialization`: the handshake sequencer.  The byte source is modelled
by `reads`; read index 0 is consumed by the pre-loop flush, the poll loop
then reads indices 1, 2, ….  Returns success, the number of poll-loop read
attempts, and all bytes written from the `HELLO` transmission on. -/
def initialization (reads : Nat → Option Byte) : Bool × Nat × List Byte :=
  let r := pollLoop reads ATTEMPT_BUDGET 1
  (r.1, r.2.1, HELLO ++ r.2.2)

/-- Buffer states reachable from `TelemetrySource::new` by any interleaving
of `write_byte` and `try_read_sample` calls. -/
inductive Reachable : TelemetrySource → Prop where
  | new : Reachable TelemetrySource.new
  | write (s : TelemetrySource) (b : Byte) :
      Reachable s → Reachable (s.write_byte b).2
  | read (s : TelemetrySource) :
      Reachable s → Reachable (s.try_read_sample).2

/-- The inductive invariant of the buffer: the cursor stays in bounds, the
stored frame keeps length `FRAME_LEN`, and the cursor is zero in every
status other than `WRITING`. -/
def SourceInv (s : TelemetrySource) : Prop :=
  s.write_index < FRAME_LEN ∧ s.data.length = FRAME_LEN ∧
    (s.status ≠ .writing → s.write_index = 0)

/-- Decidable equality for the `Except` results of the embedded methods. -/
def exceptDecEqAux {ε α : Type} (de : DecidableEq ε) (da : DecidableEq α) :
    DecidableEq (Except ε α) := fun x y =>
  match x, y with
  | .ok a, .ok b =>
    if h : a = b then .isTrue (by rw [h]) else .isFalse (fun hc => h (Except.ok.inj hc))
  | .ok _, .error _ => .isFalse (fun hc => Except.noConfusion hc)
  | .error _, .ok _ => .isFalse (fun hc => Except.noConfusion hc)
  | .error a, .error b =>
    if h : a = b then .isTrue (by rw [h]) else .isFalse (fun hc => h (Except.error.inj hc))

instance : DecidableEq (Except Unit Sample) :=
  exceptDecEqAux inferInstance inferInstance

instance : DecidableEq (Except TelemetryError Unit) :=
  exceptDecEqAux inferInstance inferInstance

instance : DecidableEq (Except TelemetryError (Option Sample)) :=
  exceptDecEqAux inferInstance inferInstance

/-- Any list of length 10 is a literal ten-element list. -/
lemma list_length_ten (d : List Byte) (h : d.length = 10) :
    ∃ a0 a1 a2 a3 a4 a5 a6 a7 a8 a9,
      d = [a0, a1, a2, a3, a4, a5, a6, a7, a8, a9] := by
  rcases d with _ | ⟨a0, d⟩; · simp at h
  rcases d with _ | ⟨a1, d⟩; · simp at h
  rcases d with _ | ⟨a2, d⟩; · simp at h
  rcases d with _ | ⟨a3, d⟩; · simp at h
  rcases d with _ | ⟨a4, d⟩; · simp at h
  rcases d with _ | ⟨a5, d⟩; · simp at h
  rcases d with _ | ⟨a6, d⟩; · simp at h
  rcases d with _ | ⟨a7, d⟩; · simp at h
  rcases d with _ | ⟨a8, d⟩; · simp at h
  rcases d with _ | ⟨a9, d⟩; · simp at h
  rcases d with _ | ⟨a10, d⟩
  · exact ⟨a0, a1, a2, a3, a4, a5, a6, a7, a8, a9, rfl⟩
  · simp at h

/-- C4: `Sample::from_dataframe` accepts a 10-byte frame exactly when the
trailing byte equals the bitwise NOT of the XOR of bytes 0 through 8 (start
marker included); in that case speed is byte 1 as i8, angle is bytes 2..6
as big-endian i32, position is bytes 6..8 as big-endian i16; otherwise it
returns an error. -/
theorem from_dataframe_checksum_and_fields
    (b0 b1 b2 b3 b4 b5 b6 b7 b8 b9 : Byte) :
    (∀ s : Sample,
      Sample.from_dataframe [b0, b1, b2, b3, b4, b5, b6, b7, b8, b9] = .ok s ↔
        (b9 = byteNot (b0 ^^^ b1 ^^^ b2 ^^^ b3 ^^^ b4 ^^^ b5 ^^^ b6 ^^^ b7 ^^^ b8) ∧
          s = { speed := toI8 b1,
                angle := toI32 (b2 * 16777216 + b3 * 65536 + b4 * 256 + b5),
                position := toI16 (b6 * 256 + b7) })) ∧
    (b9 ≠ byteNot (b0 ^^^ b1 ^^^ b2 ^^^ b3 ^^^ b4 ^^^ b5 ^^^ b6 ^^^ b7 ^^^ b8) →
      Sample.from_dataframe [b0, b1, b2, b3, b4, b5, b6, b7, b8, b9] = .error ()) := by
  have hchk : checksum_checker [b0, b1, b2, b3, b4, b5, b6, b7, b8, b9]
      = (b9 == byteNot (b0 ^^^ b1 ^^^ b2 ^^^ b3 ^^^ b4 ^^^ b5 ^^^ b6 ^^^ b7 ^^^ b8)) := rfl
  have hfb : Sample.from_be_bytes [b1, b2, b3, b4, b5, b6, b7, b8, b9]
      = { speed := toI8 b1,
          angle := toI32 (b2 * 16777216 + b3 * 65536 + b4 * 256 + b5),
          position := toI16 (b6 * 256 + b7) } := rfl
  by_cases h : b9 = byteNot (b0 ^^^ b1 ^^^ b2 ^^^ b3 ^^^ b4 ^^^ b5 ^^^ b6 ^^^ b7 ^^^ b8)
  · have hcs : checksum_checker [b0, b1, b2, b3, b4, b5, b6, b7, b8, b9] = true := by
      rw [hchk]; exact beq_iff_eq.mpr h
    constructor
    · intro s
      simp only [Sample.from_dataframe, hcs, if_true, List.drop, hfb]
      constructor
      · intro he
        exact ⟨h, (Except.ok.inj he).symm⟩
      · rintro ⟨-, rfl⟩
        rfl
    · intro hne
      exact absurd h hne
  · have hcs : checksum_checker [b0, b1, b2, b3, b4, b5, b6, b7, b8, b9] = false := by
      rw [hchk]; exact beq_eq_false_iff_ne.mpr h
    constructor
    · intro s
      simp only [Sample.from_dataframe, hcs, Bool.false_eq_true, if_false]
      constructor
      · intro he
        exact absurd he (fun hc => Except.noConfusion hc)
      · rintro ⟨hb, -⟩
        exact absurd hb h
    · intro _
      simp only [Sample.from_dataframe, hcs, Bool.false_eq_true, if_false]

/-- C5: calling `write_byte` while the status is `DONEWRITING` or `READING`
returns the overrun error, resets the cursor to 0, and leaves the status
and all stored frame bytes unchanged. -/
theorem write_byte_overrun_effect (s : TelemetrySource) (b : Byte)
    (h : s.status = .doneWriting ∨ s.status = .reading) :
    (s.write_byte b).1 = .error .overrun ∧
    (s.write_byte b).2.status = s.status ∧
    (s.write_byte b).2.data = s.data ∧
    (s.write_byte b).2.write_index = 0 := by
  rcases h with h | h <;>
    simp [TelemetrySource.write_byte, h]

/-- C5 witness: a concrete buffer holding an unread completed frame. -/
theorem write_byte_overrun_effect_witness :
    let s : TelemetrySource :=
      { status := .doneWriting, data := [216, 1, 2, 3, 4, 5, 6, 7, 0, 9], write_index := 0 }
    (s.write_byte 216).1 = .error .overrun ∧
    (s.write_byte 216).2.status = s.status ∧
    (s.write_byte 216).2.data = s.data ∧
    (s.write_byte 216).2.write_index = 0 :=
  write_byte_overrun_effect _ 216 (Or.inl rfl)

/-- C2 counterexample: with an unread frame whose checksum is wrong, the
read returns the checksum error but the status is left at `READING`, not
published back to `IDLE`, and a subsequent `write_byte` cannot begin a new
frame. -/
theorem try_read_checksum_not_idle_counterexample :
    (TelemetrySource.try_read_sample
        { status := .doneWriting, data := [216, 0, 0, 0, 0, 0, 0, 0, 0, 0],
          write_index := 0 }).1 = .error .checksum ∧
    (TelemetrySource.try_read_sample
        { status := .doneWriting, data := [216, 0, 0, 0, 0, 0, 0, 0, 0, 0],
          write_index := 0 }).2.status = .reading ∧
    ((TelemetrySource.try_read_sample
        { status := .doneWriting, data := [216, 0, 0, 0, 0, 0, 0, 0, 0, 0],
          write_index := 0 }).2.write_byte 216).1 = .error .overrun := by
  decide

/-- Helper: a `write_byte` call on a buffer whose status is `READING`
fails with the overrun return site and only resets the cursor. -/
lemma write_byte_on_reading (s : TelemetrySource) (b : Byte)
    (h : s.status = .reading) :
    s.write_byte b = (.error .overrun, { s with write_index := 0 }) := by
  simp [TelemetrySource.write_byte, h]

/-- C2 amended: when `try_read_sample` claims the frame and the checksum
fails, it returns the checksum error, but the status remains `READING`
rather than being published back to `IDLE`; consequently an immediately
following `write_byte` returns an error and stores nothing, so a new frame
cannot begin until a later read resets the buffer. -/
theorem try_read_checksum_leaves_reading (s : TelemetrySource)
    (hst : s.status = .doneWriting)
    (hcs : checksum_checker s.data = false) :
    (s.try_read_sample).1 = .error .checksum ∧
    (s.try_read_sample).2.status = .reading ∧
    (∀ b : Byte,
      ((s.try_read_sample).2.write_byte b).1 = .error .overrun ∧
      ((s.try_read_sample).2.write_byte b).2.data = s.data ∧
      ((s.try_read_sample).2.write_byte b).2.status = .reading) := by
  have hfd : Sample.from_dataframe s.data = .error () := by
    simp [Sample.from_dataframe, hcs]
  refine ⟨?_, ?_, ?_⟩
  · simp [TelemetrySource.try_read_sample, hst, hfd]
  · simp [TelemetrySource.try_read_sample, hst, hfd]
  · intro b
    have h2 : (s.try_read_sample).2 = { s with status := .reading } := by
      simp [TelemetrySource.try_read_sample, hst, hfd]
    rw [h2, write_byte_on_reading _ b rfl]
    exact ⟨rfl, rfl, rfl⟩

/-- C2 amended witness: the corrupt-frame scenario at a concrete buffer. -/
theorem try_read_checksum_leaves_reading_witness :
    let s : TelemetrySource :=
      { status := .doneWriting, data := [216, 1, 0, 0, 0, 0, 0, 0, 0, 0],
        write_index := 0 }
    (s.try_read_sample).1 = .error .checksum ∧
    (s.try_read_sample).2.status = .reading ∧
    (∀ b : Byte,
      ((s.try_read_sample).2.write_byte b).1 = .error .overrun ∧
      ((s.try_read_sample).2.write_byte b).2.data = s.data ∧
      ((s.try_read_sample).2.write_byte b).2.status = .reading) :=
  try_read_checksum_leaves_reading _ rfl (by decide)

/-- Helper: any sequence of `write_byte` calls on a buffer stuck in
`READING` leaves the stored frame and the status unchanged. -/
lemma writeFrame_on_reading (s : TelemetrySource) (h : s.status = .reading) :
    ∀ bs : List Byte,
      (writeFrame s bs).status = .reading ∧ (writeFrame s bs).data = s.data := by
  intro bs
  induction bs generalizing s with
  | nil => exact ⟨h, rfl⟩
  | cons b bs ih =>
    have hw := write_byte_on_reading s b h
    have := ih { s with write_index := 0 } h
    simpa [writeFrame, hw] using this

/-- C10: after a checksum-failing read the status remains `READING`; every
`write_byte` made before the next read returns an error without storing its
byte, and the next `try_read_sample` returns the reentrant error while
force-resetting the status to `IDLE`. -/
theorem checksum_error_suppresses_capture (s : TelemetrySource)
    (hst : s.status = .doneWriting)
    (hcs : checksum_checker s.data = false) :
    (s.try_read_sample).1 = .error .checksum ∧
    (s.try_read_sample).2.status = .reading ∧
    (∀ bs : List Byte,
      (writeFrame (s.try_read_sample).2 bs).status = .reading ∧
      (writeFrame (s.try_read_sample).2 bs).data = s.data ∧
      ∀ b : Byte,
        ((writeFrame (s.try_read_sample).2 bs).write_byte b).1
          = .error .overrun) ∧
    ((s.try_read_sample).2.try_read_sample).1 = .error .reentrant ∧
    ((s.try_read_sample).2.try_read_sample).2.status = .idle := by
  have hfd : Sample.from_dataframe s.data = .error () := by
    simp [Sample.from_dataframe, hcs]
  have h2 : (s.try_read_sample).2 = { s with status := .reading } := by
    simp [TelemetrySource.try_read_sample, hst, hfd]
  refine ⟨?_, ?_, ?_, ?_, ?_⟩
  · simp [TelemetrySource.try_read_sample, hst, hfd]
  · rw [h2]
  · intro bs
    obtain ⟨hstat, hdata⟩ := writeFrame_on_reading (s.try_read_sample).2 (by rw [h2]) bs
    refine ⟨hstat, by rw [hdata, h2], ?_⟩
    intro b
    rw [write_byte_on_reading _ b hstat]
  · rw [h2]
    simp [TelemetrySource.try_read_sample]
  · rw [h2]
    simp [TelemetrySource.try_read_sample]

/-- C10 witness: a concrete corrupt frame, checked through a two-byte write
attempt and the follow-up read. -/
theorem checksum_error_suppresses_capture_witness :
    let s : TelemetrySource :=
      { status := .doneWriting, data := [216, 2, 0, 0, 0, 0, 0, 0, 0, 0],
        write_index := 0 }
    (s.try_read_sample).1 = .error .checksum ∧
    (s.try_read_sample).2.status = .reading ∧
    (∀ bs : List Byte,
      (writeFrame (s.try_read_sample).2 bs).status = .reading ∧
      (writeFrame (s.try_read_sample).2 bs).data = s.data ∧
      ∀ b : Byte,
        ((writeFrame (s.try_read_sample).2 bs).write_byte b).1
          = .error .overrun) ∧
    ((s.try_read_sample).2.try_read_sample).1 = .error .reentrant ∧
    ((s.try_read_sample).2.try_read_sample).2.status = .idle :=
  checksum_error_suppresses_capture _ rfl (by decide)

/-- Helper: the operation list of `FullBridge::pwm` for a positive command. -/
lemma pwmOps_pos (cmd : Int) (h : 0 < cmd) :
    FullBridge.pwmOps cmd = [(1, .ground), (0, .pwm cmd.natAbs)] := by
  have hne : (cmd.natAbs == 0) = false := by
    simp [Int.natAbs_eq_zero]
    omega
  simp [FullBridge.pwmOps, hne, h]

/-- Helper: the operation list of `FullBridge::pwm` for a negative command. -/
lemma pwmOps_neg (cmd : Int) (h : cmd < 0) :
    FullBridge.pwmOps cmd = [(0, .ground), (1, .pwm cmd.natAbs)] := by
  have hne : (cmd.natAbs == 0) = false := by
    simp [Int.natAbs_eq_zero]
    omega
  have hnp : ¬ (0 < cmd) := by omega
  simp [FullBridge.pwmOps, hne, hnp]

/-- C1: an accepted motor command of 0 grounds both legs; +X energises leg A
with duty X and grounds leg B; -X energises leg B with duty X and grounds
leg A; the losing leg is written to Ground strictly before the gaining leg
is written to Pwm, so no state along the operation sequence has both legs
in Pwm simultaneously. -/
theorem fullbridge_pwm_safe (fb : FullBridge) (cmd : Int)
    (hinv : fb.bothPwm = false) (hlo : -32767 ≤ cmd) (hhi : cmd ≤ 32767) :
    (cmd = 0 → (fb.pwm cmd).legA = .ground ∧ (fb.pwm cmd).legB = .ground) ∧
    (0 < cmd → (fb.pwm cmd).legA = .pwm cmd.natAbs ∧ (fb.pwm cmd).legB = .ground ∧
      FullBridge.pwmOps cmd = [(1, .ground), (0, .pwm cmd.natAbs)]) ∧
    (cmd < 0 → (fb.pwm cmd).legB = .pwm cmd.natAbs ∧ (fb.pwm cmd).legA = .ground ∧
      FullBridge.pwmOps cmd = [(0, .ground), (1, .pwm cmd.natAbs)]) ∧
    (∀ st ∈ fb.pwmTrace cmd, st.bothPwm = false) := by
  rcases lt_trichotomy cmd 0 with hc | hc | hc
  · have hops := pwmOps_neg cmd hc
    refine ⟨fun h0 => absurd h0 (by omega), fun hp => absurd hp (by omega),
      fun _ => ?_, ?_⟩
    · refine ⟨?_, ?_, hops⟩ <;>
        simp [FullBridge.pwm, hops, FullBridge.applyOp]
    · intro st hst
      simp [FullBridge.pwmTrace, hops, List.scanl, FullBridge.applyOp] at hst
      rcases hst with rfl | rfl | rfl
      · exact hinv
      · simp [FullBridge.bothPwm]
      · simp [FullBridge.bothPwm]
  · subst hc
    have hops : FullBridge.pwmOps 0 = [(0, .ground), (1, .ground)] := by
      simp [FullBridge.pwmOps]
    refine ⟨fun _ => ?_, fun hp => absurd hp (by omega),
      fun hn => absurd hn (by omega), ?_⟩
    · constructor <;> simp [FullBridge.pwm, hops, FullBridge.applyOp]
    · intro st hst
      simp [FullBridge.pwmTrace, hops, List.scanl, FullBridge.applyOp] at hst
      rcases hst with rfl | rfl | rfl
      · exact hinv
      · simp [FullBridge.bothPwm]
      · simp [FullBridge.bothPwm]
  · have hops := pwmOps_pos cmd hc
    refine ⟨fun h0 => absurd h0 (by omega), fun _ => ?_,
      fun hn => absurd hn (by omega), ?_⟩
    · refine ⟨?_, ?_, hops⟩ <;>
        simp [FullBridge.pwm, hops, FullBridge.applyOp]
    · intro st hst
      simp [FullBridge.pwmTrace, hops, List.scanl, FullBridge.applyOp] at hst
      rcases hst with rfl | rfl | rfl
      · exact hinv
      · simp [FullBridge.bothPwm]
      · simp [FullBridge.bothPwm]

/-- C1 witness: a bridge coming from rest, driven with command +1000. -/
theorem fullbridge_pwm_safe_witness :
    ((1000 : Int) = 0 →
      ((FullBridge.pwm ⟨.ground, .ground⟩ 1000).legA = .ground ∧
       (FullBridge.pwm ⟨.ground, .ground⟩ 1000).legB = .ground)) ∧
    (0 < (1000 : Int) →
      (FullBridge.pwm ⟨.ground, .ground⟩ 1000).legA = .pwm (1000 : Int).natAbs ∧
      (FullBridge.pwm ⟨.ground, .ground⟩ 1000).legB = .ground ∧
      FullBridge.pwmOps 1000 = [(1, .ground), (0, .pwm (1000 : Int).natAbs)]) ∧
    ((1000 : Int) < 0 →
      (FullBridge.pwm ⟨.ground, .ground⟩ 1000).legB = .pwm (1000 : Int).natAbs ∧
      (FullBridge.pwm ⟨.ground, .ground⟩ 1000).legA = .ground ∧
      FullBridge.pwmOps 1000 = [(0, .ground), (1, .pwm (1000 : Int).natAbs)]) ∧
    (∀ st ∈ FullBridge.pwmTrace ⟨.ground, .ground⟩ 1000, st.bothPwm = false) :=
  fullbridge_pwm_safe ⟨.ground, .ground⟩ 1000 (by decide) (by norm_num) (by norm_num)

/-- C9 helper: the invariant holds for the freshly constructed buffer. -/
lemma sourceInv_new : SourceInv TelemetrySource.new := by
  refine ⟨?_, ?_, fun _ => rfl⟩ <;> simp [TelemetrySource.new, FRAME_LEN]

/-- C9 helper: `write_byte` preserves the buffer invariant. -/
lemma sourceInv_write (s : TelemetrySource) (b : Byte) (h : SourceInv s) :
    SourceInv (s.write_byte b).2 := by
  obtain ⟨h1, h2, h3⟩ := h
  cases hs : s.status with
  | doneWriting =>
    refine ⟨?_, ?_, ?_⟩ <;> simp [TelemetrySource.write_byte, hs, h2, FRAME_LEN]
  | reading =>
    refine ⟨?_, ?_, ?_⟩ <;> simp [TelemetrySource.write_byte, hs, h2, FRAME_LEN]
  | idle =>
    have hwi : s.write_index = 0 := h3 (by simp [hs])
    by_cases hb : b = START
    · subst hb
      refine ⟨?_, ?_, ?_⟩ <;>
        simp [TelemetrySource.write_byte, hs, TelemetrySource.write_byte_locked,
          hwi, h2, FRAME_LEN]
    · have hbb : (b != START) = true := bne_iff_ne.mpr hb
      refine ⟨?_, ?_, ?_⟩ <;>
        simp [TelemetrySource.write_byte, hs, TelemetrySource.write_byte_locked,
          hwi, hbb, h2, FRAME_LEN]
  | writing =>
    simp only [TelemetrySource.write_byte, hs, TelemetrySource.write_byte_locked]
    by_cases hz : (s.write_index == 0 && b != START) = true
    · simp only [hz, if_true]
      exact ⟨by simp [FRAME_LEN], by simp [h2], fun _ => rfl⟩
    · rw [Bool.not_eq_true] at hz
      simp only [hz, Bool.false_eq_true, if_false]
      by_cases hw : ((s.write_index + 1) % FRAME_LEN == 0) = true
      · simp only [hw, if_true]
        refine ⟨Nat.mod_lt _ (by simp [FRAME_LEN]), by simp [h2], fun _ => ?_⟩
        simpa using hw
      · rw [Bool.not_eq_true] at hw
        simp only [hw, Bool.false_eq_true, if_false]
        exact ⟨Nat.mod_lt _ (by simp [FRAME_LEN]), by simp [h2],
          fun hcon => absurd rfl hcon⟩

/-- C9 helper: `try_read_sample` preserves the buffer invariant. -/
lemma sourceInv_read (s : TelemetrySource) (h : SourceInv s) :
    SourceInv (s.try_read_sample).2 := by
  obtain ⟨h1, h2, h3⟩ := h
  cases hs : s.status with
  | doneWriting =>
    have hwi : s.write_index = 0 := h3 (by simp [hs])
    cases hfd : Sample.from_dataframe s.data with
    | ok sample =>
      refine ⟨?_, ?_, ?_⟩ <;>
        simp [TelemetrySource.try_read_sample, hs, hfd, hwi, h2, FRAME_LEN]
    | error e =>
      refine ⟨?_, ?_, ?_⟩ <;>
        simp [TelemetrySource.try_read_sample, hs, hfd, hwi, h2, FRAME_LEN]
  | reading =>
    have hwi : s.write_index = 0 := h3 (by simp [hs])
    refine ⟨?_, ?_, ?_⟩ <;>
      simp [TelemetrySource.try_read_sample, hs, hwi, h2, FRAME_LEN]
  | idle =>
    have hwi : s.write_index = 0 := h3 (by simp [hs])
    refine ⟨?_, ?_, ?_⟩ <;>
      simp [TelemetrySource.try_read_sample, hs, hwi, h2, FRAME_LEN]
  | writing =>
    have h1b : s.write_index < 10 := by simpa [FRAME_LEN] using h1
    refine ⟨?_, ?_, ?_⟩ <;>
      simp [TelemetrySource.try_read_sample, hs, h1b, h2, FRAME_LEN]

/-- C9 helper: every reachable buffer state satisfies the invariant. -/
lemma reachable_sourceInv (s : TelemetrySource) (h : Reachable s) : SourceInv s := by
  induction h with
  | new => exact sourceInv_new
  | write s b _ ih => exact sourceInv_write s b ih
  | read s _ ih => exact sourceInv_read s ih

/-- C9: in every reachable buffer state the write cursor is strictly below
`FRAME_LEN` (so the store in `write_byte` is in bounds), and the cursor is
zero whenever the status is `IDLE` or `DONEWRITING`, which is what lets the
`IDLE -> WRITING` transition store the first byte at index 0 without an
explicit cursor reset. -/
theorem reachable_write_index_bounds (s : TelemetrySource) (h : Reachable s) :
    s.write_index < FRAME_LEN ∧
    ((s.status = .idle ∨ s.status = .doneWriting) → s.write_index = 0) := by
  obtain ⟨h1, _, h3⟩ := reachable_sourceInv s h
  refine ⟨h1, fun hst => h3 ?_⟩
  rcases hst with hst | hst <;> simp [hst]

/-- C9 witness: the invariant at the initial buffer state. -/
theorem reachable_write_index_bounds_witness :
    TelemetrySource.new.write_index < FRAME_LEN ∧
    ((TelemetrySource.new.status = .idle ∨ TelemetrySource.new.status = .doneWriting) →
      TelemetrySource.new.write_index = 0) :=
  reachable_write_index_bounds TelemetrySource.new Reachable.new

/-- C3: from an idle buffer with the cursor at zero, feeding a complete
10-byte frame whose first byte is the start marker and whose checksum is
correct yields exactly the decoded sample on the next `try_read_sample`,
and a second immediate `try_read_sample` returns `Ok(None)`. -/
theorem write_then_read_delivers_sample (d : List Byte) (hd : d.length = 10)
    (b1 b2 b3 b4 b5 b6 b7 b8 b9 : Byte)
    (hcs : checksum_checker [START, b1, b2, b3, b4, b5, b6, b7, b8, b9] = true) :
    ((writeFrame { status := .idle, data := d, write_index := 0 }
        [START, b1, b2, b3, b4, b5, b6, b7, b8, b9]).try_read_sample).1
      = .ok (some (Sample.from_be_bytes [b1, b2, b3, b4, b5, b6, b7, b8, b9])) ∧
    Sample.from_dataframe [START, b1, b2, b3, b4, b5, b6, b7, b8, b9]
      = .ok (Sample.from_be_bytes [b1, b2, b3, b4, b5, b6, b7, b8, b9]) ∧
    (((writeFrame { status := .idle, data := d, write_index := 0 }
        [START, b1, b2, b3, b4, b5, b6, b7, b8, b9]).try_read_sample).2.try_read_sample).1
      = .ok none := by
  obtain ⟨a0, a1, a2, a3, a4, a5, a6, a7, a8, a9, rfl⟩ := list_length_ten d hd
  have hwf : writeFrame
      { status := .idle, data := [a0, a1, a2, a3, a4, a5, a6, a7, a8, a9], write_index := 0 }
      [START, b1, b2, b3, b4, b5, b6, b7, b8, b9]
      = { status := .doneWriting,
          data := [START, b1, b2, b3, b4, b5, b6, b7, b8, b9], write_index := 0 } := by
    simp [writeFrame, TelemetrySource.write_byte, TelemetrySource.write_byte_locked,
      FRAME_LEN, START]
  have hfd : Sample.from_dataframe [START, b1, b2, b3, b4, b5, b6, b7, b8, b9]
      = .ok (Sample.from_be_bytes [b1, b2, b3, b4, b5, b6, b7, b8, b9]) := by
    simp [Sample.from_dataframe, hcs]
  rw [hwf]
  refine ⟨?_, hfd, ?_⟩
  · simp [TelemetrySource.try_read_sample, hfd]
  · simp [TelemetrySource.try_read_sample, hfd]

/-- C3 witness: the all-zero payload frame with its correct checksum. -/
theorem write_then_read_delivers_sample_witness :
    ((writeFrame { status := .idle, data := List.replicate 10 0, write_index := 0 }
        [START, 0, 0, 0, 0, 0, 0, 0, 0, 39]).try_read_sample).1
      = .ok (some (Sample.from_be_bytes [0, 0, 0, 0, 0, 0, 0, 0, 39])) ∧
    Sample.from_dataframe [START, 0, 0, 0, 0, 0, 0, 0, 0, 39]
      = .ok (Sample.from_be_bytes [0, 0, 0, 0, 0, 0, 0, 0, 39]) ∧
    (((writeFrame { status := .idle, data := List.replicate 10 0, write_index := 0 }
        [START, 0, 0, 0, 0, 0, 0, 0, 0, 39]).try_read_sample).2.try_read_sample).1
      = .ok none :=
  write_then_read_delivers_sample (List.replicate 10 0) (by decide)
    0 0 0 0 0 0 0 0 39 (by decide)

/-- C6 helper: the counter after a tick-only pass is the saturating sum. -/
lemma loopPass_tick_none_watchdog (st : ControlState) :
    ((loopPass st true none).2).watchdog = min (st.watchdog + 1) USIZE_MAX := by
  simp [loopPass]

/-- C6 helper: a tick-only pass runs the fail-safe exactly when the updated
counter has reached the threshold. -/
lemma loopPass_tick_none_flag (st : ControlState) :
    (loopPass st true none).1
      = decide (MOTOR_CMD_TIMEOUT ≤ min (st.watchdog + 1) USIZE_MAX) := by
  simp [loopPass]

/-- C6 helper: when the fail-safe flag is set, the pass leaves every motor
grounded via `Motors::off_ground`. -/
lemma loopPass_flag_motors (st : ControlState)
    (h : (loopPass st true none).1 = true) :
    ((loopPass st true none).2).motors = Motors.off_ground st.motors := by
  have h2 : MOTOR_CMD_TIMEOUT ≤ min (st.watchdog + 1) USIZE_MAX := by
    have hf := loopPass_tick_none_flag st
    rw [h] at hf
    exact of_decide_eq_true hf.symm
  simp [loopPass, h2]

/-- C6 helper: the counter after `n` tick-only passes is the saturating sum. -/
lemma runTicks_watchdog (st : ControlState) (n : Nat)
    (hst : st.watchdog ≤ USIZE_MAX) :
    (runTicks st n).watchdog = min (st.watchdog + n) USIZE_MAX := by
  induction n with
  | zero =>
    simp only [runTicks]
    omega
  | succ n ih =>
    simp only [runTicks, loopPass_tick_none_watchdog, ih]
    omega

/-- C6: the timeout counter is advanced by saturating addition once per
timer tick; starting from 0, the fail-safe (grounding both legs of every
channel) runs in tick pass `i` exactly when `i` has reached the threshold
`MOTOR_CMD_TIMEOUT` = 128, and keeps running every later tick pass; a
received six-byte host command resets the counter to 0, after which the
next tick pass no longer forces the fail-safe. -/
theorem watchdog_threshold_failsafe (ms : List FullBridge) (i : Nat)
    (h1 : 1 ≤ i) (h2 : i ≤ USIZE_MAX) :
    (∀ st : ControlState,
      ((loopPass st true none).2).watchdog = min (st.watchdog + 1) USIZE_MAX) ∧
    ((loopPass (runTicks { watchdog := 0, motors := ms } (i - 1)) true none).1
      = decide (MOTOR_CMD_TIMEOUT ≤ i)) ∧
    (∀ st : ControlState, (loopPass st true none).1 = true →
      ∀ fb ∈ ((loopPass st true none).2).motors,
        fb.legA = .ground ∧ fb.legB = .ground) ∧
    (∀ (st : ControlState) (tick : Bool) (raw : List Byte),
      ((loopPass st tick (some raw)).2).watchdog = 0) ∧
    (∀ st : ControlState, st.watchdog = 0 → (loopPass st true none).1 = false) := by
  refine ⟨loopPass_tick_none_watchdog, ?_, ?_, ?_, ?_⟩
  · have hw := runTicks_watchdog { watchdog := 0, motors := ms } (i - 1)
      (by simp [USIZE_MAX])
    rw [loopPass_tick_none_flag, hw, decide_eq_decide]
    simp only [MOTOR_CMD_TIMEOUT, USIZE_MAX] at h2 ⊢
    omega
  · intro st hflag fb hfb
    rw [loopPass_flag_motors st hflag] at hfb
    simp only [Motors.off_ground, List.mem_map] at hfb
    obtain ⟨fb0, -, rfl⟩ := hfb
    exact ⟨rfl, rfl⟩
  · intro st tick raw
    cases tick <;> simp [loopPass]
  · intro st h0
    rw [loopPass_tick_none_flag, h0]
    simp [MOTOR_CMD_TIMEOUT, USIZE_MAX]

/-- C6 witness: at tick 128 the fail-safe fires for the first time. -/
theorem watchdog_threshold_failsafe_witness :
    (∀ st : ControlState,
      ((loopPass st true none).2).watchdog = min (st.watchdog + 1) USIZE_MAX) ∧
    ((loopPass (runTicks { watchdog := 0, motors := [] } (128 - 1)) true none).1
      = decide (MOTOR_CMD_TIMEOUT ≤ 128)) ∧
    (∀ st : ControlState, (loopPass st true none).1 = true →
      ∀ fb ∈ ((loopPass st true none).2).motors,
        fb.legA = .ground ∧ fb.legB = .ground) ∧
    (∀ (st : ControlState) (tick : Bool) (raw : List Byte),
      ((loopPass st tick (some raw)).2).watchdog = 0) ∧
    (∀ st : ControlState, st.watchdog = 0 → (loopPass st true none).1 = false) :=
  watchdog_threshold_failsafe [] 128 (by norm_num) (by norm_num [USIZE_MAX])

/-- C7 helper: when no read within the fuel yields the poll marker, the loop
uses every attempt and reports failure with nothing written. -/
lemma pollLoop_no_marker (reads : Nat → Option Byte) (fuel k : Nat)
    (h : ∀ j, j < fuel → reads (k + j) ≠ some POLL) :
    pollLoop reads fuel k = (false, fuel, []) := by
  induction fuel generalizing k with
  | zero => rfl
  | succ fuel ih =>
    have h0 : reads k ≠ some POLL := by
      simpa using h 0 (Nat.succ_pos _)
    have hrec : pollLoop reads fuel (k + 1) = (false, fuel, []) := by
      refine ih (k + 1) fun j hj => ?_
      have := h (j + 1) (by omega)
      rwa [show k + (j + 1) = k + 1 + j by omega] at this
    unfold pollLoop
    cases hr : reads k with
    | none => simp [hrec]
    | some b =>
      have hb : (b == POLL) = false := by
        rw [beq_eq_false_iff_ne]
        intro hbe
        exact h0 (by rw [hr, hbe])
      simp [hb, hrec]

/-- C7 helper: when some read within the fuel yields the poll marker, the
loop reports success and writes the echoed marker followed by the
confirmation sequence. -/
lemma pollLoop_marker (reads : Nat → Option Byte) (fuel k : Nat)
    (h : ∃ j, j < fuel ∧ reads (k + j) = some POLL) :
    (pollLoop reads fuel k).1 = true ∧
    (pollLoop reads fuel k).2.2 = POLL :: CONFIRMED := by
  induction fuel generalizing k with
  | zero =>
    obtain ⟨j, hj, -⟩ := h
    omega
  | succ fuel ih =>
    unfold pollLoop
    cases hr : reads k with
    | some b =>
      by_cases hb : b = POLL
      · simp [hb]
      · have hnext : ∃ j, j < fuel ∧ reads (k + 1 + j) = some POLL := by
          obtain ⟨j, hj, hp⟩ := h
          cases j with
          | zero =>
            rw [Nat.add_zero, hr] at hp
            exact absurd (Option.some.inj hp) hb
          | succ j =>
            exact ⟨j, by omega, by rwa [show k + 1 + j = k + (j + 1) by omega]⟩
        have hbb : (b == POLL) = false := beq_eq_false_iff_ne.mpr hb
        simpa [hbb] using ih (k + 1) hnext
    | none =>
      have hnext : ∃ j, j < fuel ∧ reads (k + 1 + j) = some POLL := by
        obtain ⟨j, hj, hp⟩ := h
        cases j with
        | zero =>
          rw [Nat.add_zero, hr] at hp
          exact absurd hp (by simp)
        | succ j =>
          exact ⟨j, by omega, by rwa [show k + 1 + j = k + (j + 1) by omega]⟩
      simpa using ih (k + 1) hnext

/-- C7: the handshake sequencer polls for the poll marker for at most
`ATTEMPT_BUDGET` read attempts.  If the source yields the marker within the
budget it returns success, echoing the marker and sending the confirmation
sequence after the hello bytes; if the source never yields the marker it
returns failure after exactly `ATTEMPT_BUDGET` attempts. -/
theorem handshake_bounded_polling (reads : Nat → Option Byte) :
    ((∃ k, k < ATTEMPT_BUDGET ∧ reads (k + 1) = some POLL) →
      (initialization reads).1 = true ∧
      (initialization reads).2.2 = HELLO ++ POLL :: CONFIRMED) ∧
    ((∀ k, k < ATTEMPT_BUDGET → reads (k + 1) ≠ some POLL) →
      (initialization reads).1 = false ∧
      (initialization reads).2.1 = ATTEMPT_BUDGET ∧
      (initialization reads).2.2 = HELLO) := by
  constructor
  · intro h
    obtain ⟨k, hk, hp⟩ := h
    have hm := pollLoop_marker reads ATTEMPT_BUDGET 1
      ⟨k, hk, by rwa [show 1 + k = k + 1 by omega]⟩
    exact ⟨hm.1, by simp [initialization, hm.2]⟩
  · intro h
    have hn := pollLoop_no_marker reads ATTEMPT_BUDGET 1
      (fun j hj => by
        have := h j hj
        rwa [show 1 + j = j + 1 by omega])
    refine ⟨?_, ?_, ?_⟩ <;> simp [initialization, hn]

/-- C7 witness: a source that answers the marker on its first polled read,
and a source that never answers. -/
theorem handshake_bounded_polling_witness :
    ((initialization (fun k => if k = 1 then some POLL else none)).1 = true ∧
      (initialization (fun k => if k = 1 then some POLL else none)).2.2
        = HELLO ++ POLL :: CONFIRMED) ∧
    ((initialization (fun _ => none)).1 = false ∧
      (initialization (fun _ => none)).2.1 = ATTEMPT_BUDGET ∧
      (initialization (fun _ => none)).2.2 = HELLO) := by
  constructor
  · exact (handshake_bounded_polling (fun k => if k = 1 then some POLL else none)).1
      ⟨0, by norm_num [ATTEMPT_BUDGET], by norm_num⟩
  · exact (handshake_bounded_polling (fun _ => none)).2 (fun k _ => by simp)

/-- C8 helper: one-byte two's-complement round trip for `i8` values. -/
lemma toI8_emod (v : Int) (h1 : -128 ≤ v) (h2 : v < 128) :
    toI8 ((v % 256).toNat) = v := by
  unfold toI8
  split <;> omega

/-- C8 helper: two-byte big-endian two's-complement round trip for `i16`. -/
lemma toI16_emod (v : Int) (h1 : -32768 ≤ v) (h2 : v < 32768) :
    toI16 (((v % 65536).toNat) / 256 * 256 + ((v % 65536).toNat) % 256) = v := by
  have hn : ((v % 65536).toNat) / 256 * 256 + ((v % 65536).toNat) % 256
      = (v % 65536).toNat := by omega
  rw [hn]
  unfold toI16
  split <;> omega

/-- C8 helper: four-byte big-endian two's-complement round trip for `i32`. -/
lemma toI32_emod (v : Int) (h1 : -2147483648 ≤ v) (h2 : v < 2147483648) :
    toI32 (((v % 4294967296).toNat) / 16777216 % 256 * 16777216 +
      ((v % 4294967296).toNat) / 65536 % 256 * 65536 +
      ((v % 4294967296).toNat) / 256 % 256 * 256 +
      ((v % 4294967296).toNat) % 256) = v := by
  have hn : ((v % 4294967296).toNat) / 16777216 % 256 * 16777216 +
      ((v % 4294967296).toNat) / 65536 % 256 * 65536 +
      ((v % 4294967296).toNat) / 256 % 256 * 256 +
      ((v % 4294967296).toNat) % 256 = (v % 4294967296).toNat := by omega
  rw [hn]
  unfold toI32
  split <;> omega

/-- Unfolding of the checksum test on an explicit ten-byte frame. -/
lemma checksum_checker_eq (x0 x1 x2 x3 x4 x5 x6 x7 x8 x9 : Byte) :
    checksum_checker [x0, x1, x2, x3, x4, x5, x6, x7, x8, x9]
      = (x9 == byteNot (x0 ^^^ x1 ^^^ x2 ^^^ x3 ^^^ x4 ^^^ x5 ^^^ x6 ^^^ x7 ^^^ x8)) := rfl

/-- Unfolding of the recomputed checksum on an explicit nine-byte body. -/
lemma checksum8_nine (x0 x1 x2 x3 x4 x5 x6 x7 x8 : Byte) :
    checksum8 [x0, x1, x2, x3, x4, x5, x6, x7, x8]
      = byteNot (x0 ^^^ x1 ^^^ x2 ^^^ x3 ^^^ x4 ^^^ x5 ^^^ x6 ^^^ x7 ^^^ x8) := by
  simp [checksum8]

/-- C8: for every sample whose fields lie in their declared ranges, writing
it with `write_be_bytes` and decoding with `from_be_bytes` reproduces the
fields exactly, and the frame built from the payload with the zero filler
and a correctly recomputed checksum decodes through `from_dataframe` to the
same sample. -/
theorem sample_roundtrip (sp an po : Int)
    (h1 : -128 ≤ sp) (h2 : sp < 128)
    (h3 : -2147483648 ≤ an) (h4 : an < 2147483648)
    (h5 : -32768 ≤ po) (h6 : po < 32768) :
    Sample.from_be_bytes (Sample.write_be_bytes ⟨sp, an, po⟩) = ⟨sp, an, po⟩ ∧
    Sample.from_dataframe (encodeFrame ⟨sp, an, po⟩) = .ok ⟨sp, an, po⟩ := by
  constructor
  · simp only [Sample.write_be_bytes, i8_to_be_bytes, i32_to_be_bytes,
      i16_to_be_bytes, List.cons_append, List.nil_append, Sample.from_be_bytes,
      List.getD_cons_zero, List.getD_cons_succ, Sample.mk.injEq]
    exact ⟨toI8_emod sp h1 h2, toI32_emod an h3 h4, toI16_emod po h5 h6⟩
  · have hbody : encodeFrame ⟨sp, an, po⟩
        = [START, (sp % 256).toNat,
           ((an % 4294967296).toNat) / 16777216 % 256,
           ((an % 4294967296).toNat) / 65536 % 256,
           ((an % 4294967296).toNat) / 256 % 256,
           ((an % 4294967296).toNat) % 256,
           ((po % 65536).toNat) / 256, ((po % 65536).toNat) % 256, 0,
           checksum8 [START, (sp % 256).toNat,
             ((an % 4294967296).toNat) / 16777216 % 256,
             ((an % 4294967296).toNat) / 65536 % 256,
             ((an % 4294967296).toNat) / 256 % 256,
             ((an % 4294967296).toNat) % 256,
             ((po % 65536).toNat) / 256, ((po % 65536).toNat) % 256, 0]] := by
      simp [encodeFrame, Sample.write_be_bytes, i8_to_be_bytes, i32_to_be_bytes,
        i16_to_be_bytes]
    rw [hbody]
    have hcc : checksum_checker [START, (sp % 256).toNat,
        ((an % 4294967296).toNat) / 16777216 % 256,
        ((an % 4294967296).toNat) / 65536 % 256,
        ((an % 4294967296).toNat) / 256 % 256,
        ((an % 4294967296).toNat) % 256,
        ((po % 65536).toNat) / 256, ((po % 65536).toNat) % 256, 0,
        checksum8 [START, (sp % 256).toNat,
          ((an % 4294967296).toNat) / 16777216 % 256,
          ((an % 4294967296).toNat) / 65536 % 256,
          ((an % 4294967296).toNat) / 256 % 256,
          ((an % 4294967296).toNat) % 256,
          ((po % 65536).toNat) / 256, ((po % 65536).toNat) % 256, 0]] = true := by
      rw [checksum_checker_eq, checksum8_nine]
      exact beq_self_eq_true _
    simp only [Sample.from_dataframe, hcc, if_true, List.drop_succ_cons,
      List.drop_zero, Sample.from_be_bytes, List.getD_cons_zero,
      List.getD_cons_succ, Except.ok.injEq, Sample.mk.injEq]
    exact ⟨toI8_emod sp h1 h2, toI32_emod an h3 h4, toI16_emod po h5 h6⟩

/-- C8 witness: the round trip at a concrete in-range sample. -/
theorem sample_roundtrip_witness :
    Sample.from_be_bytes (Sample.write_be_bytes ⟨-5, -100000, 300⟩)
      = ⟨-5, -100000, 300⟩ ∧
    Sample.from_dataframe (encodeFrame ⟨-5, -100000, 300⟩)
      = .ok ⟨-5, -100000, 300⟩ :=
  sample_roundtrip (-5) (-100000) 300 (by norm_num) (by norm_num) (by norm_num)
    (by norm_num) (by norm_num) (by norm_num)

/-- C4 witness: a frame with its correct checksum decodes to its fields,
and the same frame with a wrong trailing byte is rejected. -/
theorem from_dataframe_checksum_and_fields_witness :
    Sample.from_dataframe [216, 1, 2, 3, 4, 5, 6, 7, 0, 39]
      = .ok { speed := 1, angle := 33752069, position := 1543 } ∧
    Sample.from_dataframe [216, 1, 2, 3, 4, 5, 6, 7, 0, 40] = .error () :=
  ⟨((from_dataframe_checksum_and_fields 216 1 2 3 4 5 6 7 0 39).1
      { speed := 1, angle := 33752069, position := 1543 }).mpr
      ⟨by decide, by decide⟩,
    (from_dataframe_checksum_and_fields 216 1 2 3 4 5 6 7 0 40).2 (by decide)⟩
